import Mathlib

/-!
Verification of the OAuth callback handling and prompt construction of
`healthart.py` (Health Art Generator).  The Python source is shallowly
embedded: the Streamlit session state becomes an explicit `Session`
structure, the HTTP token exchange and the image-generation API become
oracle functions passed in as parameters (their outcomes are values of
explicit result types), and exceptions become constructors of those
result types.
-/

namespace HealthArt

/-- Access tokens are modelled as the parsed JSON value returned by the token
endpoint, kept abstract as a string. -/
abbrev Token := String

/-- Mirror of the Streamlit session state used by `main`:
`st.session_state.oauth_state` (initialised to `''`) and
`st.session_state.oauth_token` (initialised to `None`). -/
structure Session where
  oauth_state : String
  oauth_token : Option Token
deriving DecidableEq

/-- The session as first initialised by `main` (lines 102-105 of the source). -/
def initSession : Session := ⟨"", none⟩

/-- Reading the stored token; the spec calls this operation `currentToken`. -/
def currentToken (s : Session) : Option Token := s.oauth_token

/-- The `Logout` button handler (lines 237-240): clears both the token and the
state. -/
def logout (_ : Session) : Session := ⟨"", none⟩

/-- Outcome of `requests.post(TOKEN_URL, data=token_data)` followed by
`raise_for_status()` and `.json()` (lines 132-134).  `requestException`
covers `requests.exceptions.RequestException`, i.e. transport errors and
non-success HTTP statuses raised by `raise_for_status`; `otherException`
covers any other exception (e.g. JSON decoding). -/
inductive ExchangeOutcome
  | success (token : Token)
  | requestException (details : String)
  | otherException (details : String)
deriving DecidableEq

/-- Observable result of processing one OAuth callback, matching the
`st.error` / `st.success` branches of lines 114-148. -/
inductive CallbackResult
  | missingState
  | invalidState
  | authenticated (token : Token)
  | tokenExchangeFailed (details : String)
  | unexpectedError (details : String)
deriving DecidableEq

/-- Shallow embedding of the callback branch of `main` (lines 114-148).
`received_code` and `received_state` are the strings extracted from the query
parameters (lines 111-112); at this interface an absent state and an empty
state both arrive as `""` (Python `if not received_state`).  The token
exchange (lines 124-134) is an oracle `exchange` from the received code to
its outcome.  Returns the updated session and the displayed result.

- empty state: error "State parameter is missing", session untouched;
- state differing from `st.session_state.oauth_state`: error "Invalid state
  parameter", `oauth_token` set to `None` (line 120), state untouched;
- matching state: the exchange runs; on success the token is stored
  (line 135); on exception nothing is stored and the state is left as is. -/
def handleCallback (s : Session) (received_code received_state : String)
    (exchange : String → ExchangeOutcome) : Session × CallbackResult :=
  if received_state = "" then
    (s, .missingState)
  else if received_state ≠ s.oauth_state then
    (⟨s.oauth_state, none⟩, .invalidState)
  else
    match exchange received_code with
    | .success tok => (⟨s.oauth_state, some tok⟩, .authenticated tok)
    | .requestException d => (s, .tokenExchangeFailed d)
    | .otherException d => (s, .unexpectedError d)

/-- WHOOP authorization endpoint (line 15 of the source). -/
def AUTH_URL : String := "https://api.prod.whoop.com/oauth/oauth2/auth"

/-- Redirect URI (line 14 of the source). -/
def REDIRECT_URI : String := "https://healthartv1.streamlit.app/"

/-- The authorization URL built at lines 160-166, parameterised by the
configured client id and the stored OAuth state. -/
def authUrl (client_id oauth_state : String) : String :=
  AUTH_URL ++ "?" ++
  "client_id=" ++ client_id ++ "&" ++
  "response_type=code&" ++
  "redirect_uri=" ++ REDIRECT_URI ++ "&" ++
  "state=" ++ oauth_state

/-- Shallow embedding of the login-button branch of `main` (lines 151-170).
`fresh_state` stands for the value `generate_state()` would produce
(`secrets.token_urlsafe(16)`, an external randomness source).  The button is
only rendered when no token is stored (line 151), and a state is generated
and stored only when `oauth_state` is empty (line 153); otherwise nothing
happens and no URL is shown.  Returns the updated session and the
authorization URL, when one was produced. -/
def beginLogin (s : Session) (client_id fresh_state : String) :
    Session × Option String :=
  if s.oauth_token = none then
    if s.oauth_state = "" then
      (⟨fresh_state, s.oauth_token⟩, some (authUrl client_id fresh_state))
    else
      (s, none)
  else
    (s, none)

/-- The metric fields consumed by `generate_ai_art`: the primary
`recovery_score` and the `additional_metrics` dict, of which only the keys
`sleep_quality`, `strain` and `hrv` are read (lines 54-63); an absent key is
`none`.  Scores are modelled as integers (the WHOOP percentages used by the
prompts). -/
structure MetricSnapshot where
  recovery_score : Int
  sleep_quality : Option Int
  strain : Option Int
  hrv : Option Int
deriving DecidableEq

/-- Line 34 of the source. -/
def base_prompt : String :=
  "Create an abstract digital artwork representing health data with the following elements:"

/-- The color clause chosen at lines 37-42: strictly greater than 80 for the
high-recovery phrase, strictly greater than 50 for the moderate one, low
otherwise. -/
def color_prompt (recovery_score : Int) : String :=
  if recovery_score > 80 then
    "Dominant colors are vibrant greens and blues, representing high recovery (" ++
      toString recovery_score ++ "% recovery score)."
  else if recovery_score > 50 then
    "Mix of warm yellows and cool blues, balancing moderate recovery (" ++
      toString recovery_score ++ "% recovery score)."
  else
    "Subdued reds and greys dominate, indicating low recovery (" ++
      toString recovery_score ++ "% recovery score)."

/-- The `pattern_prompt` list of lines 45-50, with the `> 70` Dense/Sparse and
`> 60` circular/angular toggles. -/
def pattern_prompt (recovery_score : Int) : List String :=
  ["Incorporate flowing, organic shapes to represent flexibility and adaptability.",
   "Use repeating geometric patterns, with their regularity affected by the recovery score.",
   (if recovery_score > 70 then "Dense" else "Sparse") ++
     " network of interconnected lines symbolizing bodily systems.",
   "Abstract " ++ (if recovery_score > 60 then "circular" else "angular") ++
     " forms representing energy levels."]

/-- The `metric_prompts` list of lines 53-63: one clause per present optional
metric, in the fixed order sleep quality, strain, HRV.  The sleep clause
toggles smooth/jagged at `> 70`; the strain and HRV clauses are fixed text
around the value. -/
def metric_prompts (m : MetricSnapshot) : List String :=
  (match m.sleep_quality with
   | some sleep_quality =>
       ["Represent sleep quality (" ++ toString sleep_quality ++ "%) with " ++
         (if sleep_quality > 70 then "smooth" else "jagged") ++ " wave-like patterns."]
   | none => []) ++
  (match m.strain with
   | some strain =>
       ["Depict strain (" ++ toString strain ++ "%) with compact, intertwined lines."]
   | none => []) ++
  (match m.hrv with
   | some hrv =>
       ["Visualize HRV (" ++ toString hrv ++ ") with fluctuating rhythms in the artwork."]
   | none => [])

/-- The `full_prompt` assembled at lines 66-68: base, color clause and pattern
clauses joined by single spaces, with the metric clauses appended only when
at least one is present.  This is the pure prompt-construction part of
`generate_ai_art`; the spec calls it `buildPrompt`. -/
def buildPrompt (m : MetricSnapshot) : String :=
  let full_prompt := base_prompt ++ " " ++ color_prompt m.recovery_score ++ " " ++
    String.intercalate " " (pattern_prompt m.recovery_score)
  if (metric_prompts m).isEmpty then full_prompt
  else full_prompt ++ " " ++ String.intercalate " " (metric_prompts m)

/-- Outcome of one fallible step inside the `try` block of lines 73-89:
either a value or a raised exception carrying a message. -/
inductive ApiResult (α : Type)
  | ok (value : α)
  | exn (msg : String)

/-- Shallow embedding of `generate_ai_art` after the prompt is built
(lines 72-93).  The three fallible steps of the `try` block are oracles:
`createImage` is `client.Image.create` returning the image URL,
`fetchImage` is `requests.get` plus `raise_for_status` returning the bytes,
`b64encode` is the base64 encoding and UTF-8 decoding.  Any `exn` outcome
is caught by the `except Exception` handler (lines 91-93) and the function
returns `None`; only a fully successful run returns the encoded image. -/
def generate_ai_art (m : MetricSnapshot)
    (createImage : String → ApiResult String)
    (fetchImage : String → ApiResult String)
    (b64encode : String → ApiResult String) : Option String :=
  match createImage (buildPrompt m) with
  | .exn _ => none
  | .ok image_url =>
    match fetchImage image_url with
    | .exn _ => none
    | .ok image_bytes =>
      match b64encode image_bytes with
      | .exn _ => none
      | .ok image_base64 => some image_base64

/-- Substring containment, used to state which clauses a built string
contains: the pattern occurs contiguously somewhere in `s`. -/
def containsStr (s pat : String) : Prop := pat.toList <:+: s.toList

instance (s pat : String) : Decidable (containsStr s pat) :=
  List.decidableInfix pat.toList s.toList

set_option maxRecDepth 100000

/-- C2: if the received state is empty — which at this interface is also how
an absent state arrives (Python `if not received_state`) — the callback fails
with MissingState whatever the received code, the session (state and token)
is untouched, and no token exchange is attempted: the result is the same for
every exchange oracle. -/
theorem handleCallback_empty_state_missing (s : Session) (received_code : String)
    (exchange : String → ExchangeOutcome) :
    handleCallback s received_code "" exchange = (s, CallbackResult.missingState) := rfl

/-- C3: a nonempty received state that differs from the session's stored
outstanding state fails with InvalidState, the stored token is cleared (and
`currentToken` afterwards returns none), the stored state is untouched, and
no token exchange is attempted: the result is the same for every exchange
oracle. -/
theorem handleCallback_invalid_state_clears_token (s : Session)
    (received_code received_state : String) (exchange : String → ExchangeOutcome)
    (hne : received_state ≠ "") (hmm : received_state ≠ s.oauth_state) :
    handleCallback s received_code received_state exchange =
      (⟨s.oauth_state, none⟩, CallbackResult.invalidState) ∧
    currentToken (handleCallback s received_code received_state exchange).1 = none := by
  simp [handleCallback, hne, hmm, currentToken]

/-- Witness for C3 at a concrete session holding a token. -/
theorem handleCallback_invalid_state_clears_token_witness :
    handleCallback ⟨"S", some "oldtok"⟩ "c" "X" (fun _ => ExchangeOutcome.success "t2") =
      (⟨"S", none⟩, CallbackResult.invalidState) ∧
    currentToken (handleCallback ⟨"S", some "oldtok"⟩ "c" "X"
      (fun _ => ExchangeOutcome.success "t2")).1 = none :=
  handleCallback_invalid_state_clears_token ⟨"S", some "oldtok"⟩ "c" "X"
    (fun _ => ExchangeOutcome.success "t2") (by decide) (by decide)

/-- C1 counterexample: beginning a login stores state "S"; a first callback
with state "S" and a successful exchange is accepted, yet the consumed state
is still stored afterwards, and a second callback presenting the very same
state "S" is accepted again (authenticated) rather than failing with
InvalidState. -/
theorem state_reused_after_callback :
    (beginLogin initSession "cid" "S").1 = ⟨"S", none⟩ ∧
    (handleCallback ⟨"S", none⟩ "c1" "S" (fun _ => ExchangeOutcome.success "tok")).1.oauth_state
      = "S" ∧
    (handleCallback (handleCallback ⟨"S", none⟩ "c1" "S"
        (fun _ => ExchangeOutcome.success "tok")).1 "c2" "S"
        (fun _ => ExchangeOutcome.success "tok2")).2 = CallbackResult.authenticated "tok2" ∧
    CallbackResult.authenticated "tok2" ≠ CallbackResult.invalidState :=
  ⟨rfl, rfl, rfl, by decide⟩

/-- C1 amended: after handleCallback matches a received state, the consumed
state is NOT removed — the stored state is unchanged regardless of the
exchange outcome — so a second handleCallback presenting the same state is
matched again (it reaches the exchange and never fails with InvalidState);
the state is only ever cleared by logout. -/
theorem state_not_removed_on_match (s : Session) (c1 c2 state : String)
    (ex1 ex2 : String → ExchangeOutcome)
    (hne : state ≠ "") (hmm : state = s.oauth_state) :
    (handleCallback s c1 state ex1).1.oauth_state = s.oauth_state ∧
    (handleCallback (handleCallback s c1 state ex1).1 c2 state ex2).2 ≠
      CallbackResult.invalidState ∧
    (logout (handleCallback s c1 state ex1).1).oauth_state = "" := by
  subst hmm
  rcases s with ⟨st, tk⟩
  constructor
  · simp only [handleCallback, if_neg hne]
    cases ex1 c1 <;> simp
  constructor
  · simp only [handleCallback, if_neg hne]
    cases ex1 c1 <;> cases ex2 c2 <;> simp
  · simp [logout]

/-- Witness for C1 amended: a first callback whose exchange fails still
leaves state "S" outstanding, and a second callback with "S" is not rejected
as InvalidState. -/
theorem state_not_removed_on_match_witness :
    (handleCallback ⟨"S", none⟩ "c1" "S"
      (fun _ => ExchangeOutcome.requestException "boom")).1.oauth_state = "S" ∧
    (handleCallback (handleCallback ⟨"S", none⟩ "c1" "S"
        (fun _ => ExchangeOutcome.requestException "boom")).1 "c2" "S"
        (fun _ => ExchangeOutcome.success "tok")).2 ≠ CallbackResult.invalidState ∧
    (logout (handleCallback ⟨"S", none⟩ "c1" "S"
      (fun _ => ExchangeOutcome.requestException "boom")).1).oauth_state = "" :=
  state_not_removed_on_match ⟨"S", none⟩ "c1" "c2" "S"
    (fun _ => ExchangeOutcome.requestException "boom")
    (fun _ => ExchangeOutcome.success "tok") (by decide) rfl

/-- C6: on a matching state the stored token afterwards is exactly determined
by the exchange outcome — unchanged on a `requests` exception (transport
error or non-success HTTP status raised by `raise_for_status`) as well as on
any other exception, and replaced only by the token of a successful
exchange; the displayed result is TokenExchangeFailed exactly on the
`requests` exception. -/
theorem handleCallback_exchange_failure_keeps_token (s : Session)
    (received_code state : String) (exchange : String → ExchangeOutcome)
    (hne : state ≠ "") (hmm : state = s.oauth_state) :
    (handleCallback s received_code state exchange).1.oauth_token =
      (match exchange received_code with
       | ExchangeOutcome.success tok => some tok
       | ExchangeOutcome.requestException _ => s.oauth_token
       | ExchangeOutcome.otherException _ => s.oauth_token) ∧
    (handleCallback s received_code state exchange).2 =
      (match exchange received_code with
       | ExchangeOutcome.success tok => CallbackResult.authenticated tok
       | ExchangeOutcome.requestException d => CallbackResult.tokenExchangeFailed d
       | ExchangeOutcome.otherException d => CallbackResult.unexpectedError d) := by
  subst hmm
  simp only [handleCallback, if_neg hne]
  cases exchange received_code <;> simp

/-- Witness for C6: a failing exchange at a session already holding a token
reports TokenExchangeFailed and leaves the old token in place. -/
theorem handleCallback_exchange_failure_keeps_token_witness :
    (handleCallback ⟨"S", some "oldtok"⟩ "c" "S"
      (fun _ => ExchangeOutcome.requestException "http 400")).1.oauth_token = some "oldtok" ∧
    (handleCallback ⟨"S", some "oldtok"⟩ "c" "S"
      (fun _ => ExchangeOutcome.requestException "http 400")).2 =
      CallbackResult.tokenExchangeFailed "http 400" :=
  handleCallback_exchange_failure_keeps_token ⟨"S", some "oldtok"⟩ "c" "S"
    (fun _ => ExchangeOutcome.requestException "http 400") (by decide) rfl

/-- String concatenation concatenates the underlying character lists. -/
theorem toList_append (a b : String) : (a ++ b).toList = a.toList ++ b.toList := rfl

/-- C4 counterexample: at client id "cid" and stored state "xyz" the login
URL produced by beginLogin is the constructed authorization URL, and that
URL contains no occurrence of "scope" at all, so it does not embed all five
parameters (the scope parameter is missing). -/
theorem authUrl_omits_scope :
    (beginLogin initSession "cid" "xyz").2 = some (authUrl "cid" "xyz") ∧
    ¬ containsStr (authUrl "cid" "xyz") "scope" :=
  ⟨rfl, by decide⟩

/-- C4 amended: on a session with no token and no outstanding state,
beginLogin returns the authorization URL built from the client id and the
state it has just stored, and that URL embeds the four parameters
client_id, response_type=code, redirect_uri (with the configured redirect
URI) and state (with the stored state value); no scope parameter is
included. -/
theorem beginLogin_url_embeds_params (s : Session) (client_id fresh_state : String)
    (htok : s.oauth_token = none) (hst : s.oauth_state = "") :
    (beginLogin s client_id fresh_state).2 =
      some (authUrl client_id (beginLogin s client_id fresh_state).1.oauth_state) ∧
    containsStr (authUrl client_id fresh_state) "client_id=" ∧
    containsStr (authUrl client_id fresh_state) "response_type=code" ∧
    containsStr (authUrl client_id fresh_state) ("redirect_uri=" ++ REDIRECT_URI) ∧
    containsStr (authUrl client_id fresh_state) ("state=" ++ fresh_state) := by
  refine ⟨by simp [beginLogin, htok, hst], ?_, ?_, ?_, ?_⟩
  · exact ⟨(AUTH_URL ++ "?").toList,
      (client_id ++ "&" ++ "response_type=code&" ++ "redirect_uri=" ++ REDIRECT_URI ++
        "&" ++ "state=" ++ fresh_state).toList,
      by simp [authUrl, toList_append, List.append_assoc]⟩
  · have h1 : "response_type=code".toList <:+: "response_type=code&".toList := by decide
    have h2 : "response_type=code&".toList <:+: (authUrl client_id fresh_state).toList :=
      ⟨(AUTH_URL ++ "?" ++ "client_id=" ++ client_id ++ "&").toList,
       ("redirect_uri=" ++ REDIRECT_URI ++ "&" ++ "state=" ++ fresh_state).toList,
       by simp [authUrl, toList_append, List.append_assoc]⟩
    exact h1.trans h2
  · exact ⟨(AUTH_URL ++ "?" ++ "client_id=" ++ client_id ++ "&" ++ "response_type=code&").toList,
      ("&" ++ "state=" ++ fresh_state).toList,
      by simp [authUrl, toList_append, List.append_assoc]⟩
  · exact ⟨(AUTH_URL ++ "?" ++ "client_id=" ++ client_id ++ "&" ++ "response_type=code&" ++
        "redirect_uri=" ++ REDIRECT_URI ++ "&").toList, [],
      by simp [authUrl, toList_append, List.append_assoc]⟩

/-- Witness for C4 amended at the initial session with concrete client id and
fresh state. -/
theorem beginLogin_url_embeds_params_witness :
    (beginLogin initSession "cid" "xyz").2 =
      some (authUrl "cid" (beginLogin initSession "cid" "xyz").1.oauth_state) ∧
    containsStr (authUrl "cid" "xyz") "client_id=" ∧
    containsStr (authUrl "cid" "xyz") "response_type=code" ∧
    containsStr (authUrl "cid" "xyz") ("redirect_uri=" ++ REDIRECT_URI) ∧
    containsStr (authUrl "cid" "xyz") ("state=" ++ "xyz") :=
  beginLogin_url_embeds_params initSession "cid" "xyz" rfl rfl

/-- C5 counterexample: from the initial session, a first login initiation
stores state "S1"; a second consecutive login initiation with fresh value
"S2" available does NOT generate or store a new state — the stored state is
still "S1" and no authorization URL is produced — so consecutive login
initiations share one state value and there is no support for multiple
outstanding states. -/
theorem beginLogin_reuses_outstanding_state :
    (beginLogin (beginLogin initSession "cid" "S1").1 "cid" "S2").1.oauth_state = "S1" ∧
    (beginLogin (beginLogin initSession "cid" "S1").1 "cid" "S2").2 = none ∧
    "S1" ≠ "S2" :=
  ⟨rfl, rfl, by decide⟩

/-- C5 amended: beginLogin generates and stores a fresh state only when the
session has no token and no outstanding state; the session has a single
outstanding-state slot, and a login initiation while a (nonempty) state is
outstanding stores nothing, returns no URL and leaves the first state in
place — so two consecutive login initiations use the same stored state. -/
theorem beginLogin_single_state_slot (s : Session) (client_id f1 f2 : String)
    (htok : s.oauth_token = none) (hst : s.oauth_state = "") (hf : f1 ≠ "") :
    (beginLogin s client_id f1).1.oauth_state = f1 ∧
    beginLogin (beginLogin s client_id f1).1 client_id f2 =
      ((beginLogin s client_id f1).1, none) := by
  rcases s with ⟨st, tk⟩
  simp only at htok hst
  subst htok hst
  simp [beginLogin, hf]

/-- Witness for C5 amended: two consecutive initiations from the initial
session. -/
theorem beginLogin_single_state_slot_witness :
    (beginLogin initSession "cid" "S1").1.oauth_state = "S1" ∧
    beginLogin (beginLogin initSession "cid" "S1").1 "cid" "S2" =
      ((beginLogin initSession "cid" "S1").1, none) :=
  beginLogin_single_state_slot initSession "cid" "S1" "S2" rfl rfl (by decide)

/-- C7: the band thresholds are strict — at recovery_score exactly 80 the
built prompt carries the moderate color phrase, not the high-recovery one
(the condition is a strict greater-than 80), and at exactly 50 it carries
the low-recovery phrase, not the moderate one (strict greater-than 50 for
moderate). -/
theorem buildPrompt_band_boundaries :
    color_prompt 80 =
      "Mix of warm yellows and cool blues, balancing moderate recovery (80% recovery score)." ∧
    color_prompt 50 =
      "Subdued reds and greys dominate, indicating low recovery (50% recovery score)." ∧
    containsStr (buildPrompt ⟨80, none, none, none⟩) "moderate recovery" ∧
    ¬ containsStr (buildPrompt ⟨80, none, none, none⟩) "high recovery" ∧
    containsStr (buildPrompt ⟨50, none, none, none⟩) "low recovery" ∧
    ¬ containsStr (buildPrompt ⟨50, none, none, none⟩) "moderate recovery" := by
  refine ⟨rfl, rfl, by decide, by decide, by decide, by decide⟩

/-- C8 counterexample: for the snapshot with recovery_score 40 and strain 18
the built prompt contains no occurrence of "bold" at all — there is no
"bold" strain clause (the strain clause is fixed text with no threshold on
the strain value). -/
theorem strain_clause_has_no_bold :
    ¬ containsStr (buildPrompt ⟨40, none, some 18, none⟩) "bold" := by decide

/-- C8 amended: for the snapshot with recovery_score 40 and strain 18 the
prompt contains the low-recovery color clause, the "Sparse" network
descriptor, the "angular" forms descriptor, and the strain clause
"Depict strain (18%) with compact, intertwined lines." (the strain clause
is unconditional fixed text; there is no "bold" variant and no comparison
of strain against 15). -/
theorem low_recovery_strain_prompt_clauses :
    containsStr (buildPrompt ⟨40, none, some 18, none⟩) "indicating low recovery" ∧
    containsStr (buildPrompt ⟨40, none, some 18, none⟩)
      "Sparse network of interconnected lines" ∧
    containsStr (buildPrompt ⟨40, none, some 18, none⟩) "Abstract angular forms" ∧
    containsStr (buildPrompt ⟨40, none, some 18, none⟩)
      "Depict strain (18%) with compact, intertwined lines." := by
  refine ⟨by decide, by decide, by decide, by decide⟩

/-- C9: prompt construction is a pure function of the snapshot fields — two
snapshots agreeing on recovery_score and on each optional metric yield
byte-identical prompts (the embedding of lines 33-68 involves no input or
output and no randomness). -/
theorem buildPrompt_deterministic (s1 s2 : MetricSnapshot)
    (h1 : s1.recovery_score = s2.recovery_score)
    (h2 : s1.sleep_quality = s2.sleep_quality)
    (h3 : s1.strain = s2.strain)
    (h4 : s1.hrv = s2.hrv) :
    buildPrompt s1 = buildPrompt s2 := by
  have : s1 = s2 := by
    cases s1; cases s2; simp_all
  rw [this]

/-- Witness for C9 at a concrete snapshot with every optional metric set. -/
theorem buildPrompt_deterministic_witness :
    buildPrompt ⟨85, some 72, some 10, some 45⟩ = buildPrompt ⟨85, some 72, some 10, some 45⟩ :=
  buildPrompt_deterministic ⟨85, some 72, some 10, some 45⟩ ⟨85, some 72, some 10, some 45⟩
    rfl rfl rfl rfl

/-- C10: generate_ai_art catches every exception raised inside its try block
and returns none instead of propagating it — whether the image-creation
call, the image fetch, or the base64 encoding step raises. -/
theorem generate_ai_art_catches_exceptions (m : MetricSnapshot)
    (createImage fetchImage b64encode : String → ApiResult String)
    (url bytes msg : String) :
    (createImage (buildPrompt m) = ApiResult.exn msg →
      generate_ai_art m createImage fetchImage b64encode = none) ∧
    (createImage (buildPrompt m) = ApiResult.ok url → fetchImage url = ApiResult.exn msg →
      generate_ai_art m createImage fetchImage b64encode = none) ∧
    (createImage (buildPrompt m) = ApiResult.ok url → fetchImage url = ApiResult.ok bytes →
      b64encode bytes = ApiResult.exn msg →
      generate_ai_art m createImage fetchImage b64encode = none) := by
  refine ⟨?_, ?_, ?_⟩
  · intro h
    simp [generate_ai_art, h]
  · intro h1 h2
    simp [generate_ai_art, h1, h2]
  · intro h1 h2 h3
    simp [generate_ai_art, h1, h2, h3]

/-- Witness for C10: an image-creation call that raises makes the function
return none. -/
theorem generate_ai_art_catches_exceptions_witness :
    generate_ai_art ⟨40, none, some 18, none⟩ (fun _ => ApiResult.exn "boom")
      (fun _ => ApiResult.ok "ignored") (fun _ => ApiResult.ok "ignored") = none :=
  (generate_ai_art_catches_exceptions ⟨40, none, some 18, none⟩
    (fun _ => ApiResult.exn "boom") (fun _ => ApiResult.ok "ignored")
    (fun _ => ApiResult.ok "ignored") "u" "b" "boom").1 rfl

end HealthArt
